import Mathlib

/-!
# Verification of the `auto_chat` conversation engine

Shallow embedding of the turn-taking conversation engine of the
`auto_chat` repository: the retry-with-backoff wrapper and provider
clients of `src/api_clients.py`, the exception taxonomy of
`src/exceptions.py`, the persona record of `src/persona.py`, and the
conversation loop of `src/auto_chat.py` (`ChatManager`).

Python machine-level details are modelled as follows: exceptions become
explicit result values, `requests` transport behaviour becomes an oracle
argument, string operations use Lean's `String` functions (the denylist
phrases involved are plain ASCII), and float backoff delays are modelled
exactly over `ℚ`.
-/

set_option maxRecDepth 100000

namespace AutoChat

/-! ## Exception taxonomy (`src/exceptions.py` and the `requests` library)

The retry wrapper of `src/api_clients.py` dispatches on the Python class
of the raised exception:
`requests.exceptions.ConnectionError`, `requests.exceptions.Timeout`,
other `requests.exceptions.RequestException` (with or without an attached
HTTP response), the configuration errors `APIKeyMissingError` and
`ModelNotSetError` from `src/exceptions.py`, and everything else
(uncaught).  `APIRequestError` is the application-level wrapper raised
after retries are exhausted (and by the clients themselves); it is *not*
a `requests` exception. -/
inductive PyExc where
  /-- `requests.exceptions.ConnectionError` -/
  | connectionError
  /-- `requests.exceptions.Timeout` -/
  | timeout
  /-- another `requests.exceptions.RequestException`; carries the
  attached response's HTTP status code when `e.response is not None` -/
  | requestException (status : Option Nat)
  /-- `exceptions.APIKeyMissingError` -/
  | apiKeyMissing
  /-- `exceptions.ModelNotSetError` -/
  | modelNotSet
  /-- any other Python exception (not caught by the retry wrapper) -/
  | other
  deriving DecidableEq, Repr

/-- Outcome of one underlying call of the wrapped function: either a
return value or a raised exception. -/
inductive Outcome where
  | ok (value : String)
  | exc (e : PyExc)
  deriving DecidableEq, Repr

/-- How the retry wrapper `retry_with_backoff` (src/api_clients.py,
lines 47–102) treats a raised exception, following the `except` clauses
in source order:
`ConnectionError` and `Timeout` are retried; another
`RequestException` is retried exactly when it carries a response with a
5xx status, re-raised on a 4xx status, and re-raised otherwise (other
status, or no response); `APIKeyMissingError`/`ModelNotSetError` are
re-raised; any other exception is not caught at all, so it propagates. -/
def retryable : PyExc → Bool
  | .connectionError => true
  | .timeout => true
  | .requestException (some status) =>
      if 400 ≤ status ∧ status < 500 then false
      else if 500 ≤ status ∧ status < 600 then true
      else false
  | .requestException none => false
  | .apiKeyMissing => false
  | .modelNotSet => false
  | .other => false

/-- Result of running the retry wrapper to completion. -/
inductive RetryResult where
  /-- the wrapped function returned normally -/
  | ok (value : String)
  /-- a non-retryable exception propagated unchanged -/
  | raised (e : PyExc)
  /-- all attempts failed transiently; the wrapper raised a single
  `APIRequestError` whose message is built from the attempt count
  `max_retries + 1` and the string of the last underlying exception
  (src/api_clients.py lines 104–110) -/
  | exhausted (attempts : Nat) (lastCause : PyExc)
  deriving DecidableEq, Repr

/-- The loop body of `retry_with_backoff` (src/api_clients.py lines
50–110), starting at attempt number `attempt` (0-based).  `f n` is the
outcome of the `n`-th underlying call.  Returns the final result
together with the list of back-off delays slept, in order; the delay
before retrying after attempt `attempt` is
`min (backoff_base * backoff_multiplier ^ attempt) max_delay`
(source line 59 and its two copies).  A retryable failure on the last
allowed attempt (`attempt = max_retries`) falls out of the loop and
raises the summarizing `APIRequestError`; every exception classified
retryable is a `requests.RequestException`, so the `isinstance` branch
at line 106 is always taken. -/
def retryAux (backoffBase backoffMultiplier maxDelay : ℚ) (maxRetries : Nat)
    (f : Nat → Outcome) (attempt : Nat) : RetryResult × List ℚ :=
  match f attempt with
  | .ok v => (.ok v, [])
  | .exc e =>
      if retryable e then
        if _h : attempt < maxRetries then
          let d := min (backoffBase * backoffMultiplier ^ attempt) maxDelay
          let rest := retryAux backoffBase backoffMultiplier maxDelay maxRetries f (attempt + 1)
          (rest.1, d :: rest.2)
        else
          (.exhausted (maxRetries + 1) e, [])
      else
        (.raised e, [])
  termination_by maxRetries - attempt

/-- `retry_with_backoff(max_retries, backoff_base, backoff_multiplier,
max_delay)` applied to a function whose `n`-th call has outcome `f n`:
run the attempt loop from attempt 0. -/
def retryWithBackoff (backoffBase backoffMultiplier maxDelay : ℚ) (maxRetries : Nat)
    (f : Nat → Outcome) : RetryResult × List ℚ :=
  retryAux backoffBase backoffMultiplier maxDelay maxRetries f 0

/-! ## Python string primitives

`str.replace`, `str.lower`, `str.upper` and `str.strip` are modelled
over `List Char` by structural recursion so that every use reduces
inside the kernel. -/

/-- `str.replace(old, new)` scan over a character list: at each
position, if `pattern` is a prefix, emit `replacement` and continue
after the matched occurrence (non-overlapping, left-to-right, exactly
Python's semantics for a non-empty `pattern`).  The `fuel` argument
makes the recursion structural; with `fuel ≥ s.length` and a non-empty
`pattern` it never runs out, since each step consumes at least one
character. -/
def listReplaceAux (pattern replacement : List Char) : Nat → List Char → List Char
  | 0, s => s
  | _ + 1, [] => []
  | fuel + 1, c :: rest =>
      if pattern.isPrefixOf (c :: rest) then
        replacement ++ listReplaceAux pattern replacement fuel ((c :: rest).drop pattern.length)
      else
        c :: listReplaceAux pattern replacement fuel rest

/-- `s.replace(pattern, replacement)` for a non-empty `pattern`. -/
def pyReplace (s pattern replacement : String) : String :=
  ⟨listReplaceAux pattern.data replacement.data s.data.length s.data⟩

/-- `str.lower()` (the phrases involved are ASCII, where Python's
`lower` agrees with `Char.toLower`). -/
def pyLower (s : String) : String :=
  ⟨s.data.map Char.toLower⟩

/-- `str.upper()` (ASCII, as for `pyLower`). -/
def pyUpper (s : String) : String :=
  ⟨s.data.map Char.toUpper⟩

/-- `str.strip()`: remove leading and trailing whitespace. -/
def pyStrip (s : String) : String :=
  ⟨((s.data.dropWhile Char.isWhitespace).reverse.dropWhile Char.isWhitespace).reverse⟩

/-! ## Provider clients (`src/api_clients.py`) -/

/-- The mutable configuration of an `APIClient` instance
(src/api_clients.py lines 116–125 and 413–425): the display `name`, the
`base_url`, the `api_key` (empty string for clients created without
one), and the current `model` (`None` until `set_model` is called).
`set_model(model_name)` assigns only `self.model`. -/
structure ClientState where
  name : String
  baseUrl : String
  apiKey : String
  model : Option String
  deriving DecidableEq, Repr

/-- `APIClient.set_model` (src/api_clients.py lines 123–125). -/
def ClientState.setModel (c : ClientState) (modelName : String) : ClientState :=
  { c with model := some modelName }

/-- Python truthiness of an optional string: `None` and `""` are falsy.
Used for `if not self.model`, `if not self.api_key`,
`if original_model:` and the `if not message:` guards. -/
def truthy : Option String → Bool
  | none => false
  | some s => s ≠ ""

/-- What the transport layer does when
`OpenAICompatibleClient.generate_response` finally issues its HTTP POST
(src/api_clients.py lines 463–493): abstracted as an oracle so that the
configuration checks can be stated for every transport behaviour. -/
inductive HttpOutcome where
  /-- the request returned 2xx and the body parsed to the generated text -/
  | ok (text : String)
  /-- the request raised some `requests` exception / bad status -/
  | fail (e : PyExc)
  deriving DecidableEq, Repr

/-- One call of `OpenAICompatibleClient.generate_response`
(src/api_clients.py lines 427–493), with the HTTP POST abstracted by
the oracle `http`.  Returns the Python outcome together with the number
of HTTP requests issued.  The body first checks
`if not self.api_key: raise APIKeyMissingError` (line 445) and then
`if not self.model: raise ModelNotSetError` (line 447), both before any
request is built or sent; on `HTTPError`/`RequestException` from the
POST the handlers re-raise an `APIRequestError` (modelled as
`.requestException` carrying the status), and on a 2xx body missing the
expected fields (`KeyError`/`IndexError`, lines 491–493) likewise. -/
def oaiGenerateResponse (c : ClientState) (http : Unit → HttpOutcome) :
    Outcome × Nat :=
  if ¬ truthy (some c.apiKey) then (.exc .apiKeyMissing, 0)
  else if ¬ truthy c.model then (.exc .modelNotSet, 0)
  else
    match http () with
    | .ok text => (.ok (pyStrip text), 1)
    | .fail e => (.exc e, 1)

/-! ### Streaming frame handling (C3)

`OllamaClient.generate_streaming_response` (src/api_clients.py lines
227–263) iterates `response.iter_lines()`: falsy (empty) lines are
skipped; each remaining line goes through `json.loads` *outside* any
per-frame handler, so a `json.JSONDecodeError` is caught only by the
surrounding `except json.JSONDecodeError` at line 261, which raises
`APIRequestError` — the generator terminates with that exception after
the fragments already yielded.  A decoded chunk yields
`chunk["message"]["content"]` when the `"content"` key is present and
stops the stream when `chunk.get("done")` is truthy.

`LMStudioClient.generate_streaming_response` (lines 334–373) and
`OpenAICompatibleClient.generate_streaming_response` (lines 495–544)
share one loop shape: strip a `data: ` prefix, stop at the `[DONE]`
sentinel, and decode each remaining non-empty line inside a per-frame
`try`/`except json.JSONDecodeError` that logs and `continue`s; a frame
with `choices[0].delta.content` present and truthy yields it. -/

/-- One line of a native-format (Ollama) streaming response, as the
loop at src/api_clients.py lines 244–250 distinguishes them. -/
inductive OllamaFrame where
  /-- a falsy (empty) line: `if line:` skips it -/
  | blank
  /-- a line on which `json.loads` raises `json.JSONDecodeError` -/
  | malformed
  /-- a decoded chunk `{"message": {...}, "done": ...}`: `content` is
  `chunk["message"]["content"]` when present, `done` is the truthiness
  of `chunk.get("done")` -/
  | chunk (content : Option String) (done : Bool)
  deriving DecidableEq, Repr

/-- The fragments yielded by `OllamaClient.generate_streaming_response`
for a given sequence of received lines, paired with `true` when the
stream terminated by raising (`APIRequestError` from the
`json.JSONDecodeError` handler at line 261). -/
def ollamaStream : List OllamaFrame → List String × Bool
  | [] => ([], false)
  | .blank :: rest => ollamaStream rest
  | .malformed :: _ => ([], true)
  | .chunk content done :: rest =>
      let yielded := match content with
        | some s => [s]
        | none => []
      if done then (yielded, false)
      else
        let tail := ollamaStream rest
        (yielded ++ tail.1, tail.2)

/-- One line of an OpenAI-compatible (SSE) streaming response, after the
`data: ` prefix strip at src/api_clients.py lines 353–355 / 524–526. -/
inductive SseFrame where
  /-- a falsy line, or one that is empty after the prefix strip -/
  | blank
  /-- the literal `[DONE]` sentinel -/
  | done
  /-- a line on which `json.loads` raises `json.JSONDecodeError`:
  logged and skipped by the per-frame handler -/
  | malformed
  /-- a decoded chunk; `content` is `choices[0].delta.content` when the
  whole path is present (`none` when any key is missing) -/
  | chunk (content : Option String)
  deriving DecidableEq, Repr

/-- The fragments yielded by the shared OpenAI-compatible streaming
loop (`LMStudioClient.generate_streaming_response` lines 351–373 and
`OpenAICompatibleClient.generate_streaming_response` lines 522–544),
paired with `true` when the stream terminated by raising.  A present
`content` is yielded only when truthy (`if content:`). -/
def sseStream : List SseFrame → List String × Bool
  | [] => ([], false)
  | .blank :: rest => sseStream rest
  | .done :: _ => ([], false)
  | .malformed :: rest => sseStream rest
  | .chunk content :: rest =>
      let yielded := match content with
        | some s => if s = "" then [] else [s]
        | none => []
      let tail := sseStream rest
      (yielded ++ tail.1, tail.2)

/-! ### Model listing (C7) -/

/-- The decoded JSON body of a model-listing response, as far as the
three `get_available_models` implementations inspect it.  For the entry
list, each element records whether the expected field (`"name"` for
Ollama's `/api/tags`, `"id"` for the OpenAI-style `/models`) is present
and, if so, its value. -/
inductive JsonBody where
  /-- `response.json()` raises (undecodable body).  In the `requests`
  library this is `requests.exceptions.JSONDecodeError`, a subclass of
  `RequestException`. -/
  | undecodable
  /-- the body's top level is not a JSON object, so `.get` raises
  `AttributeError` -/
  | nonObject
  /-- a JSON object; `entries = none` when the list key (`"models"` /
  `"data"`) is absent, otherwise the list of entries with their
  optional expected field -/
  | object (entries : Option (List (Option String)))
  deriving DecidableEq, Repr

/-- Outcome of the HTTP GET issued by `get_available_models`. -/
inductive FetchOutcome where
  /-- the GET itself raised a `requests.RequestException` -/
  | netError
  /-- a response with this status code and (decoded) body -/
  | response (status : Nat) (body : JsonBody)
  deriving DecidableEq, Repr

/-- Result of a `get_available_models` call: either a returned list or
an exception escaping the method. -/
inductive ListModelsResult where
  | ok (models : List String)
  | raises
  deriving DecidableEq, Repr

/-- `raise_for_status` raises `requests.HTTPError` exactly for status
codes in 4xx–5xx. -/
def raiseForStatusErrors (status : Nat) : Bool :=
  400 ≤ status ∧ status < 600

/-- `OllamaClient.get_available_models` (src/api_clients.py lines
265–278): the `try` block GETs `/api/tags`, calls `raise_for_status`,
reads `response.json().get("models", [])` and builds
`[model["name"] for model in models]`; the single `except
requests.RequestException` handler logs and returns `[]`.  A body whose
top level is not an object (`AttributeError`) or an entry without a
`"name"` key (`KeyError`) raises an exception the handler does not
catch. -/
def ollamaGetAvailableModels (fetch : FetchOutcome) : ListModelsResult :=
  match fetch with
  | .netError => .ok []
  | .response status body =>
      if raiseForStatusErrors status then .ok []
      else
        match body with
        | .undecodable => .ok []
        | .nonObject => .raises
        | .object none => .ok []
        | .object (some entries) =>
            if entries.all Option.isSome then .ok (entries.reduceOption)
            else .raises

/-- `LMStudioClient.get_available_models` (src/api_clients.py lines
385–407): same handler structure as the Ollama variant (only the URL
normalisation, the list key `"data"` and the entry field `"id"`
differ), so the same failure behaviour. -/
def lmStudioGetAvailableModels (fetch : FetchOutcome) : ListModelsResult :=
  match fetch with
  | .netError => .ok []
  | .response status body =>
      if raiseForStatusErrors status then .ok []
      else
        match body with
        | .undecodable => .ok []
        | .nonObject => .raises
        | .object none => .ok []
        | .object (some entries) =>
            if entries.all Option.isSome then .ok (entries.reduceOption)
            else .raises

/-- `OpenAICompatibleClient.get_available_models` (src/api_clients.py
lines 556–577): returns `[]` immediately when the API key is unset, and
its `try` block is guarded by `except Exception`, so every failure —
transport, status, decoding, or missing fields — degrades to `[]`. -/
def oaiGetAvailableModels (apiKey : String) (fetch : FetchOutcome) : ListModelsResult :=
  if apiKey = "" then .ok []
  else
    match fetch with
    | .netError => .ok []
    | .response status body =>
        if raiseForStatusErrors status then .ok []
        else
          match body with
          | .undecodable => .ok []
          | .nonObject => .ok []
          | .object none => .ok []
          | .object (some entries) =>
              if entries.all Option.isSome then .ok (entries.reduceOption)
              else .ok []

/-! ## Personas (`src/persona.py`) -/

/-- `Persona` (src/persona.py lines 6–13): its `__init__` assigns exactly
the four attributes `name`, `personality`, `age`, `gender`, and
`from_dict` (the only constructor used by `ChatManager.load_personas`
and `cli_chat.load_personas`) sets nothing else. -/
structure Persona where
  name : String
  personality : String
  age : Int
  gender : String
  deriving DecidableEq, Repr

/-- Python attribute lookup of `fallback_provider` on a `Persona`
object.  The class defines only `name`, `personality`, `age` and
`gender`, and no code in the repository ever assigns a
`fallback_provider` (or `fallback_model`) attribute to a persona
instance, so the lookup performed by the engine's fallback handler
(src/auto_chat.py line 404) always raises `AttributeError`; this is
modelled as the constant `none`. -/
def Persona.fallbackProviderAttr (_p : Persona) : Option String := none

/-! ## Conversation messages and the API-facing history
(`src/auto_chat.py`) -/

/-- The `role` strings the program stores in `self.conversation`: the
loop appends `"assistant"`/`"user"` turn messages (src/auto_chat.py
lines 363–369 and 432–437), `add_narrator_message` appends `"narrator"`
(line 538) and `add_system_instruction` appends `"system"` (line 554);
no other writer of the conversation list exists. -/
inductive Role where
  | system
  | narrator
  | assistant
  | user
  deriving DecidableEq, Repr

/-- One entry of `ChatManager.conversation`: a dict with keys `role`,
`persona` and `content`. -/
structure Msg where
  role : Role
  persona : String
  content : String
  deriving DecidableEq, Repr

/-- Roles of the API-facing history entries sent to a client. -/
inductive ApiRole where
  | system
  | assistant
  | user
  deriving DecidableEq, Repr

/-- One entry of the `api_history` list built for a turn. -/
structure ApiMsg where
  role : ApiRole
  content : String
  deriving DecidableEq, Repr

/-- How one stored message is turned into an `api_history` entry for
the turn of the persona named `activeName` (src/auto_chat.py lines
306–324): `system` messages become system-role entries with the
`IMPORTANT - …` emphasis prefix, `narrator` messages become system-role
entries with the `URGENT SCENE CHANGE - …` prefix, and
`assistant`/`user` messages keep their content with role `"assistant"`
exactly when `msg["persona"] == current_persona.name`, else `"user"`.
(The source's final `else` branch, mapping any other role string to
`"user"`, has no counterpart because `Role` enumerates every role the
program ever stores.) -/
def apiEntry (activeName : String) (m : Msg) : ApiMsg :=
  match m.role with
  | .system =>
      { role := .system
        content := "IMPORTANT - MUST ACKNOWLEDGE AND REACT TO THIS IMMEDIATELY: " ++ m.content }
  | .narrator =>
      { role := .system
        content := "URGENT SCENE CHANGE - REACT TO THIS IMMEDIATELY: " ++ m.content }
  | .assistant =>
      { role := if m.persona = activeName then .assistant else .user
        content := m.content }
  | .user =>
      { role := if m.persona = activeName then .assistant else .user
        content := m.content }

/-- Building `api_history` (src/auto_chat.py lines 303–324):
`history_start_index = max(0, len(self.conversation) - self.history_limit)`
followed by a loop appending one entry per message of
`self.conversation[history_start_index:]`.  (`max 0` is the truncated
subtraction of `Nat`.) -/
def buildApiHistory (conversation : List Msg) (historyLimit : Nat)
    (activeName : String) : List ApiMsg :=
  let historyStartIndex := conversation.length - historyLimit
  (conversation.drop historyStartIndex).foldl
    (fun apiHistory m => apiHistory ++ [apiEntry activeName m]) []

/-! ## UI-artifact stripping (`ChatManager._clean_model_response`) -/

/-- The fixed denylist of UI phrases (src/auto_chat.py lines 507–516). -/
def uiPatterns : List String :=
  [ "Click reply or enter to continue"
  , "Click reply or enter after each message"
  , "Press Enter to continue"
  , "Type your response below"
  , "Click to respond"
  , "Please respond to continue our conversation"
  , "Your turn to respond"
  , "Click below to respond" ]

/-- The four punctuation variants tried for each pattern
(src/auto_chat.py line 522). -/
def patternVariants (pattern : String) : List String :=
  [pattern, pattern ++ ".", pattern ++ "!", pattern ++ ","]

/-- `ChatManager._clean_model_response` (src/auto_chat.py lines
504–530): for each pattern and each punctuation variant, remove all
occurrences of the variant itself, of its `lower()` form and of its
`upper()` form, then strip surrounding whitespace. -/
def cleanModelResponse (text : String) : String :=
  let cleaned := uiPatterns.foldl
    (fun cleanedText pattern =>
      (patternVariants pattern).foldl
        (fun t variant =>
          pyReplace (pyReplace (pyReplace t variant "") (pyLower variant) "") (pyUpper variant) "")
        cleanedText)
    text
  pyStrip cleaned

/-! ## The conversation loop (`ChatManager._run_conversation_loop`) -/

/-- Outcome of the `generate_response` call made for one turn, as the
loop's handlers distinguish them (src/auto_chat.py lines 347 and
386–467): a returned text, `APIKeyMissingError`, `ModelNotSetError`,
`APIRequestError` (what the retry-wrapped clients raise for request
failures once retries are exhausted), or any other exception. -/
inductive GenOutcome where
  | ok (text : String)
  | apiKeyMissing
  | modelNotSet
  | apiRequestError
  | unexpected
  deriving DecidableEq, Repr

/-- The engine configuration fixed for one conversation run: the two
selected personas (`start_conversation` requires exactly two,
src/auto_chat.py line 247), `max_turns`, and the oracle `gen` giving
the outcome of the `generate_response` call issued on turn `t`. -/
structure EngineConfig where
  persona0 : Persona
  persona1 : Persona
  maxTurns : Nat
  gen : Nat → GenOutcome

/-- The loop-relevant mutable state of a `ChatManager` run:
`self.conversation`, `self.current_turn`, `self.is_running`. -/
structure EngineState where
  messages : List Msg
  turnIndex : Nat
  running : Bool
  deriving DecidableEq, Repr

/-- One iteration of the turn loop body (src/auto_chat.py lines
285–467), with pausing disabled (`is_paused = False` throughout) and
the API request abstracted by `cfg.gen`.  The request construction
itself (history window, role mapping, prompt choice, lines 300–343) is
embedded separately as `buildApiHistory`; it does not affect the state
transition.

* `actor_index = current_turn % 2` (line 292) selects the persona.
* Success (lines 352–384): the response is `strip()`ped, cleaned by
  `_clean_model_response`, appended with role `"assistant"` for actor 0
  and `"user"` for actor 1 and the persona's name, and `current_turn`
  is incremented.
* `APIKeyMissingError` / `ModelNotSetError` (lines 386–398):
  `is_running = False` and `break`.
* `APIRequestError` (lines 399–461): the handler first evaluates
  `current_persona.fallback_provider` (line 404).  Src's `Persona` has
  no such attribute (`Persona.fallbackProviderAttr` is `none`), so this
  raises `AttributeError` *inside* the `except` clause; sibling
  handlers of the same `try` do not catch it, the outer handler at line
  478 does, and the loop terminates with `is_running = False` (also set
  in the `finally` block).  The skip-and-continue code at lines 405–461
  is therefore unreachable; the fallback block itself is modelled
  separately as `fallbackTurnAttempt`.
* Any other exception (lines 462–467): `is_running = False`, `break`. -/
def turnBody (cfg : EngineConfig) (st : EngineState) : EngineState :=
  let actorIndex := st.turnIndex % 2
  let currentPersona := if actorIndex = 0 then cfg.persona0 else cfg.persona1
  match cfg.gen st.turnIndex with
  | .ok text =>
      let responseContent := cleanModelResponse (pyStrip text)
      let newRole := if actorIndex = 0 then Role.assistant else Role.user
      { st with
        messages := st.messages ++ [⟨newRole, currentPersona.name, responseContent⟩]
        turnIndex := st.turnIndex + 1 }
  | .apiKeyMissing => { st with running := false }
  | .modelNotSet => { st with running := false }
  | .apiRequestError =>
      match currentPersona.fallbackProviderAttr with
      | none => { st with running := false }
      | some _ => st
  | .unexpected => { st with running := false }

/-- `while self.is_running and self.current_turn < self.max_turns:`
(src/auto_chat.py line 275), fuel-indexed; with `fuel ≥ maxTurns -
turnIndex` the fuel never runs out, since each iteration either
increments `turnIndex` or clears `running`. -/
def runLoop (cfg : EngineConfig) : Nat → EngineState → EngineState
  | 0, st => st
  | fuel + 1, st =>
      if st.running ∧ st.turnIndex < cfg.maxTurns then
        runLoop cfg fuel (turnBody cfg st)
      else st

/-- `ChatManager.start_conversation` (src/auto_chat.py lines 234–266),
called while idle: it resets `conversation`, `current_turn` and the
flags, then validates
`len(self.selected_personas) != 2 or len(self.selected_clients) != 2`
(line 247); on failure it sets `is_running = False` and returns without
starting the worker (`none`), otherwise the loop starts from the reset
state. -/
def startConversation (selectedPersonas : List Persona)
    (selectedClients : List ClientState) : Option EngineState :=
  if selectedPersonas.length = 2 ∧ selectedClients.length = 2 then
    some { messages := [], turnIndex := 0, running := true }
  else
    none

/-! ## The per-turn fallback block (src/auto_chat.py lines 408–449)

The gating persona fields are *modelled from the spec*: the spec's
Persona carries optional `fallback_provider` / `fallback_model`
declarations, which the engine reads at line 404 but which
`src/persona.py` never defines (see `Persona.fallbackProviderAttr`).
Given a declared fallback whose provider resolves to a client, the
block's own behaviour is entirely src code: save `original_model :=
fallback_client.model` (line 413), `set_model(fallback_model)` (line
416), call `generate_response` on the now-configured client (line 419)
— on success `strip` and clean the text and restore the saved model
*only when it is truthy* (`if original_model:`, lines 428–429); on any
exception the `except` handler at line 452 only logs, so the restore
at line 429 never executes and the client keeps the fallback model. -/
def fallbackTurnAttempt (fallbackModel : String) (client : ClientState)
    (call : ClientState → Outcome) : ClientState × Option String :=
  let originalModel := client.model
  let configured := client.setModel fallbackModel
  match call configured with
  | .ok text =>
      let restored :=
        match originalModel with
        | some m => if m = "" then configured else configured.setModel m
        | none => configured
      (restored, some (cleanModelResponse (pyStrip text)))
  | .exc _ => (configured, none)

/-! ## Injected messages (`add_narrator_message`,
`add_system_instruction`) -/

/-- The state these two operations touch: the conversation list, the
sequence of messages written to the log file by `_log_message`, and the
number of display notifications scheduled via
`app.after(0, update_conversation_display)`. -/
structure ManagerView where
  conversation : List Msg
  logged : List Msg
  notifications : Nat
  deriving DecidableEq, Repr

/-- `ChatManager.add_narrator_message` (src/auto_chat.py lines
532–545): `if not message: return`, otherwise append a
`narrator`/`"Narrator"` message, log it, and schedule one display
update. -/
def addNarratorMessage (st : ManagerView) (message : String) : ManagerView :=
  if ¬ truthy (some message) then st
  else
    let narratorMsg : Msg := ⟨.narrator, "Narrator", message⟩
    { conversation := st.conversation ++ [narratorMsg]
      logged := st.logged ++ [narratorMsg]
      notifications := st.notifications + 1 }

/-- `ChatManager.add_system_instruction` (src/auto_chat.py lines
547–568): `if not instruction: return`, otherwise append a
`system`/`"System"` message, log it, and schedule one display
update. -/
def addSystemInstruction (st : ManagerView) (instruction : String) : ManagerView :=
  if ¬ truthy (some instruction) then st
  else
    let systemMsg : Msg := ⟨.system, "System", instruction⟩
    { conversation := st.conversation ++ [systemMsg]
      logged := st.logged ++ [systemMsg]
      notifications := st.notifications + 1 }

/-! ## Helper lemmas -/

/-- A stopped loop does nothing regardless of remaining fuel. -/
lemma runLoop_of_not_running (cfg : EngineConfig) (fuel : Nat) (st : EngineState)
    (h : st.running = false) : runLoop cfg fuel st = st := by
  cases fuel with
  | zero => rfl
  | succ n => simp [runLoop, h]

/-- Folding append-of-singleton over a list is `map` (the shape of the
`api_history` building loop). -/
lemma foldl_append_singleton {α β : Type} (f : α → β) :
    ∀ (l : List α) (acc : List β),
      l.foldl (fun a m => a ++ [f m]) acc = acc ++ l.map f := by
  intro l
  induction l with
  | nil => intro acc; simp
  | cons x xs ih => intro acc; simp [List.foldl_cons, ih]

/-- `buildApiHistory` maps `apiEntry` over the window suffix. -/
lemma buildApiHistory_eq_map (conversation : List Msg) (historyLimit : Nat)
    (activeName : String) :
    buildApiHistory conversation historyLimit activeName =
      (conversation.drop (conversation.length - historyLimit)).map (apiEntry activeName) := by
  unfold buildApiHistory
  simpa using foldl_append_singleton (apiEntry activeName)
    (conversation.drop (conversation.length - historyLimit)) []

/-- The OpenAI-compatible streaming loop never terminates by raising. -/
lemma sseStream_never_errors : ∀ frames : List SseFrame, (sseStream frames).2 = false := by
  intro frames
  induction frames with
  | nil => rfl
  | cons f rest ih =>
      cases f with
      | blank => simpa [sseStream] using ih
      | done => rfl
      | malformed => simpa [sseStream] using ih
      | chunk c => simp [sseStream, ih]

/-- Removing a malformed frame from an OpenAI-compatible stream does
not change its output: the frame is skipped. -/
lemma sseStream_skips_malformed :
    ∀ pre post : List SseFrame,
      sseStream (pre ++ .malformed :: post) = sseStream (pre ++ post) := by
  intro pre post
  induction pre with
  | nil => simp [sseStream]
  | cons f rest ih =>
      cases f with
      | blank => simpa [sseStream] using ih
      | done => simp [sseStream]
      | malformed => simpa [sseStream] using ih
      | chunk c => simp [sseStream, ih]

end AutoChat

namespace AutoChat

/-! ## Claim theorems -/

/-- C1.  The claim says a `RequestError` on a single turn never
terminates the conversation: the turn should be skipped with
`turn_index` advanced by 1 (or completed through a declared fallback)
and the loop should continue.  The code violates this: `Persona`
(src/persona.py) has no `fallback_provider` attribute, so the handler's
very first access (src/auto_chat.py line 404) raises `AttributeError`
inside the `except APIRequestError` clause, which escapes to the outer
handler and ends the loop.  Evaluated at a concrete failing input — a
two-persona conversation with `max_turns = 3` whose first
`generate_response` call raises `APIRequestError` — the loop terminates
immediately: no message is appended, `turn_index` stays 0 (not
advanced), and the conversation is no longer running. -/
theorem requestError_aborts_conversation :
    runLoop
      { persona0 := ⟨"Alice", "calm", 30, "female"⟩
        persona1 := ⟨"Bob", "curious", 25, "male"⟩
        maxTurns := 3
        gen := fun t => if t = 0 then .apiRequestError else .ok "hi" }
      3 { messages := [], turnIndex := 0, running := true } =
      { messages := [], turnIndex := 0, running := false } := by
  rfl

/-- C9.  The claim (and the code's own comment at src/auto_chat.py line
518, "Check for each pattern case-insensitively and remove it") says
every denylist phrase is stripped case-insensitively.  The
implementation only removes the phrase's original, all-lowercase and
all-uppercase spellings, so the mixed-case occurrence
`"pRess Enter to continue"` — case-insensitively equal to the denylist
entry `"Press Enter to continue"` — survives `_clean_model_response`
unchanged. -/
theorem cleanModelResponse_misses_mixed_case :
    "Press Enter to continue" ∈ uiPatterns ∧
    pyLower "pRess Enter to continue" = pyLower "Press Enter to continue" ∧
    cleanModelResponse "pRess Enter to continue" = "pRess Enter to continue" := by
  refine ⟨by decide, by decide, by decide⟩

/-- C10.  Injecting an empty narrator message or system instruction is
a complete no-op: the conversation list, the log-file output and the
notification count are all unchanged. -/
theorem inject_empty_is_noop (st : ManagerView) :
    addNarratorMessage st "" = st ∧ addSystemInstruction st "" = st := by
  constructor <;> simp [addNarratorMessage, addSystemInstruction, truthy]

/-- If the attempts from `start` up to (excluding) `start + k` all fail
retryably and attempt `start + k ≤ maxRetries` succeeds with `v`, the
retry loop returns `v` after sleeping the backoff delay once per failed
attempt. -/
lemma retryAux_ok_after (b m dmax : ℚ) (N : Nat) (f : Nat → Outcome) :
    ∀ (k start : Nat), start + k ≤ N →
      (∀ a, start ≤ a → a < start + k → ∃ e, f a = .exc e ∧ retryable e = true) →
      ∀ v, f (start + k) = .ok v →
      retryAux b m dmax N f start =
        (.ok v, (List.range' start k).map (fun a => min (b * m ^ a) dmax)) := by
  intro k
  induction k with
  | zero =>
      intro start _ _ v hok
      rw [Nat.add_zero] at hok
      unfold retryAux
      rw [hok]
      simp
  | succ k ih =>
      intro start hle htrans v hok
      obtain ⟨e, hfe, hret⟩ := htrans start (le_refl _) (by omega)
      have hlt : start < N := by omega
      unfold retryAux
      rw [hfe]
      simp only [hret, if_true, hlt, dif_pos]
      have hrec := ih (start + 1) (by omega)
        (fun a ha hb => htrans a (by omega) (by omega)) v
        (by rw [show start + 1 + k = start + (k + 1) by omega]; exact hok)
      rw [hrec, List.range'_succ, List.map_cons]

/-- If every attempt up to `maxRetries` fails retryably, the loop
exhausts its budget, sleeps the backoff delay after each attempt but
the last, and raises the single summarizing `APIRequestError` built
from `maxRetries + 1` and the last attempt's failure. -/
lemma retryAux_exhaust (b m dmax : ℚ) (N : Nat) (f : Nat → Outcome) (eN : PyExc)
    (heN : f N = .exc eN) :
    ∀ (k start : Nat), start + k = N →
      (∀ a, start ≤ a → a ≤ N → ∃ e, f a = .exc e ∧ retryable e = true) →
      retryAux b m dmax N f start =
        (.exhausted (N + 1) eN, (List.range' start k).map (fun a => min (b * m ^ a) dmax)) := by
  intro k
  induction k with
  | zero =>
      intro start hsum htrans
      have hstart : start = N := by omega
      subst hstart
      obtain ⟨e, hfe, hret⟩ := htrans start (le_refl _) (le_refl _)
      have he : e = eN := by
        rw [heN] at hfe
        exact (Outcome.exc.injEq _ _).mp hfe.symm
      subst he
      unfold retryAux
      rw [hfe]
      simp [hret]
  | succ k ih =>
      intro start hsum htrans
      obtain ⟨e, hfe, hret⟩ := htrans start (le_refl _) (by omega)
      have hlt : start < N := by omega
      unfold retryAux
      rw [hfe]
      simp only [hret, if_true, hlt, dif_pos]
      have hrec := ih (start + 1) (by omega)
        (fun a ha hb => htrans a (by omega) hb)
      rw [hrec, List.range'_succ, List.map_cons]

/-- In a run where every generate call up to `maxTurns` succeeds, the
loop ends with `turnIndex = maxTurns`, `running` still true, and the
speakers of the accumulated messages following the `turn_index mod 2`
round-robin. -/
lemma runLoop_all_success (cfg : EngineConfig)
    (hgen : ∀ t, t < cfg.maxTurns → ∃ s, cfg.gen t = .ok s) :
    ∀ (fuel : Nat) (st : EngineState),
      st.running = true →
      st.turnIndex ≤ cfg.maxTurns →
      cfg.maxTurns - st.turnIndex ≤ fuel →
      st.messages.map Msg.persona =
        (List.range st.turnIndex).map
          (fun i => if i % 2 = 0 then cfg.persona0.name else cfg.persona1.name) →
      (runLoop cfg fuel st).running = true ∧
      (runLoop cfg fuel st).turnIndex = cfg.maxTurns ∧
      (runLoop cfg fuel st).messages.map Msg.persona =
        (List.range cfg.maxTurns).map
          (fun i => if i % 2 = 0 then cfg.persona0.name else cfg.persona1.name) := by
  intro fuel
  induction fuel with
  | zero =>
      intro st h1 h2 h3 h4
      have heq : st.turnIndex = cfg.maxTurns := by omega
      rw [show runLoop cfg 0 st = st from rfl]
      rw [heq] at h4
      exact ⟨h1, heq, h4⟩
  | succ n ih =>
      intro st h1 h2 h3 h4
      by_cases hlt : st.turnIndex < cfg.maxTurns
      · have hstep : runLoop cfg (n + 1) st = runLoop cfg n (turnBody cfg st) := by
          simp [runLoop, h1, hlt]
        obtain ⟨s, hs⟩ := hgen st.turnIndex hlt
        have hbody :
            turnBody cfg st =
              { st with
                messages := st.messages ++
                  [⟨if st.turnIndex % 2 = 0 then Role.assistant else Role.user,
                    (if st.turnIndex % 2 = 0 then cfg.persona0 else cfg.persona1).name,
                    cleanModelResponse (pyStrip s)⟩]
                turnIndex := st.turnIndex + 1 } := by
          unfold turnBody
          rw [hs]
        rw [hstep, hbody]
        apply ih
        · exact h1
        · simpa using hlt
        · simp; omega
        · simp only [List.map_append, h4, List.range_succ, List.map_cons, List.map_nil]
          rw [apply_ite Persona.name]
      · have heq : st.turnIndex = cfg.maxTurns := by omega
        have hstop : runLoop cfg (n + 1) st = st := by
          simp [runLoop, hlt]
        rw [hstop]
        rw [heq] at h4
        exact ⟨h1, heq, h4⟩

/-- C4.  For every valid start (the engine accepts exactly two
participants with their two clients) and every run in which all
`max_turns = T` generate calls succeed and no messages are injected:
each accepted turn advances `turn_index` by exactly 1 and appends
exactly one message, and the finished run has exactly `T` messages with
`turn_index = T`, the speaker of turn `i` being participant `i mod 2`
of the selected participant list. -/
theorem successful_run_shape (selectedPersonas : List Persona)
    (selectedClients : List ClientState) (cfg : EngineConfig)
    (init : EngineState) (T fuel : Nat)
    (hsel : selectedPersonas = [cfg.persona0, cfg.persona1])
    (hstart : startConversation selectedPersonas selectedClients = some init)
    (hT : cfg.maxTurns = T)
    (hgen : ∀ t, t < T → ∃ s, cfg.gen t = .ok s)
    (hfuel : T ≤ fuel) :
    (∀ (st : EngineState) (s : String), cfg.gen st.turnIndex = .ok s →
        (turnBody cfg st).turnIndex = st.turnIndex + 1 ∧
        (turnBody cfg st).messages.length = st.messages.length + 1) ∧
    (runLoop cfg fuel init).messages.length = T ∧
    (runLoop cfg fuel init).turnIndex = T ∧
    (∀ i, i < T →
        ((runLoop cfg fuel init).messages.map Msg.persona)[i]? =
          (selectedPersonas.map Persona.name)[i % 2]?) := by
  have hinit : init = { messages := [], turnIndex := 0, running := true } := by
    unfold startConversation at hstart
    split at hstart
    · exact (Option.some.injEq _ _).mp hstart.symm
    · exact absurd hstart (by simp)
  subst hinit hT
  have hrun := runLoop_all_success cfg hgen fuel
    { messages := [], turnIndex := 0, running := true }
    rfl (by simp) (by simpa using hfuel) (by simp)
  refine ⟨?_, ?_, hrun.2.1, ?_⟩
  · intro st s hs
    have hbody :
        turnBody cfg st =
          { st with
            messages := st.messages ++
              [⟨if st.turnIndex % 2 = 0 then Role.assistant else Role.user,
                (if st.turnIndex % 2 = 0 then cfg.persona0 else cfg.persona1).name,
                cleanModelResponse (pyStrip s)⟩]
            turnIndex := st.turnIndex + 1 } := by
      unfold turnBody
      rw [hs]
    rw [hbody]
    simp
  · have := congrArg List.length hrun.2.2
    simpa using this
  · intro i hi
    rw [hrun.2.2, hsel]
    rcases Nat.mod_two_eq_zero_or_one i with h | h <;>
      simp [List.getElem?_map, List.getElem?_range, hi, h]

/-- C4 witness: a concrete two-persona run with `max_turns = 2` in
which every generate call returns `"hi"`: the finished run has 2
messages, `turn_index = 2`, and the speaker of turn 1 is participant
`1 mod 2`, i.e. Bob. -/
theorem successful_run_shape_witness :
    (runLoop
        { persona0 := ⟨"Alice", "calm", 30, "female"⟩
          persona1 := ⟨"Bob", "curious", 25, "male"⟩
          maxTurns := 2
          gen := fun _ => .ok "hi" }
        2 { messages := [], turnIndex := 0, running := true }).turnIndex = 2 ∧
    ((runLoop
        { persona0 := ⟨"Alice", "calm", 30, "female"⟩
          persona1 := ⟨"Bob", "curious", 25, "male"⟩
          maxTurns := 2
          gen := fun _ => .ok "hi" }
        2 { messages := [], turnIndex := 0, running := true }).messages.map
          Msg.persona)[1]? = some "Bob" := by
  have h := successful_run_shape
    [⟨"Alice", "calm", 30, "female"⟩, ⟨"Bob", "curious", 25, "male"⟩]
    [⟨"Ollama", "http://127.0.0.1:11434", "", none⟩,
     ⟨"LM Studio", "http://localhost:1234/v1", "", none⟩]
    { persona0 := ⟨"Alice", "calm", 30, "female"⟩
      persona1 := ⟨"Bob", "curious", 25, "male"⟩
      maxTurns := 2
      gen := fun _ => .ok "hi" }
    { messages := [], turnIndex := 0, running := true }
    2 2 rfl rfl rfl (fun t _ => ⟨"hi", rfl⟩) (le_refl 2)
  refine ⟨h.2.2.1, ?_⟩
  have := h.2.2.2 1 (by decide)
  simpa using this

/-- C2.  The retry wrapper's failure classification, stated in four
parts: (1) an exception is retryable exactly when it is a connection
error, a timeout, or a request exception carrying a 5xx response; (2) a
4xx request exception or a configuration error raised on the first
attempt propagates immediately — no retry, no sleep; (3) if the first
`k ≤ N` attempts fail retryably and attempt `k` succeeds, the wrapper
returns that value having slept `min (d0 * m ^ attempt) dmax` before
each retry; (4) if all `N + 1` attempts fail retryably, the wrapper
raises exactly one summarizing `APIRequestError` carrying the attempt
count `N + 1` and the last underlying cause. -/
theorem retry_policy_classification :
    (∀ e : PyExc, retryable e = true ↔
        (e = .connectionError ∨ e = .timeout ∨
          ∃ s, e = .requestException (some s) ∧ 500 ≤ s ∧ s < 600)) ∧
    (∀ (b m dmax : ℚ) (N : Nat) (f : Nat → Outcome) (e : PyExc),
        ((∃ s, e = .requestException (some s) ∧ 400 ≤ s ∧ s < 500) ∨
          e = .apiKeyMissing ∨ e = .modelNotSet) →
        f 0 = .exc e →
        retryWithBackoff b m dmax N f = (.raised e, [])) ∧
    (∀ (b m dmax : ℚ) (N k : Nat) (f : Nat → Outcome) (v : String),
        k ≤ N →
        (∀ a, a < k → ∃ e, f a = .exc e ∧ retryable e = true) →
        f k = .ok v →
        retryWithBackoff b m dmax N f =
          (.ok v, (List.range k).map (fun a => min (b * m ^ a) dmax))) ∧
    (∀ (b m dmax : ℚ) (N : Nat) (f : Nat → Outcome) (eN : PyExc),
        (∀ a, a ≤ N → ∃ e, f a = .exc e ∧ retryable e = true) →
        f N = .exc eN →
        retryWithBackoff b m dmax N f =
          (.exhausted (N + 1) eN, (List.range N).map (fun a => min (b * m ^ a) dmax))) := by
  refine ⟨?_, ?_, ?_, ?_⟩
  · intro e
    cases e with
    | connectionError => simp [retryable]
    | timeout => simp [retryable]
    | requestException status =>
        cases status with
        | none => simp [retryable]
        | some s =>
            simp only [retryable]
            constructor
            · intro h
              refine Or.inr (Or.inr ⟨s, rfl, ?_⟩)
              by_cases h4 : 400 ≤ s ∧ s < 500
              · simp [h4] at h
              · by_cases h5 : 500 ≤ s ∧ s < 600
                · exact h5
                · simp [h4, h5] at h
            · rintro (h | h | ⟨s', hs', h5⟩)
              · exact absurd h (by simp)
              · exact absurd h (by simp)
              · obtain rfl : s = s' := by
                  simpa using hs'
                have h4 : ¬ (400 ≤ s ∧ s < 500) := by omega
                simp [h4, h5]
    | apiKeyMissing => simp [retryable]
    | modelNotSet => simp [retryable]
    | other => simp [retryable]
  · intro b m dmax N f e he hf0
    have hret : retryable e = false := by
      rcases he with ⟨s, rfl, hs⟩ | rfl | rfl
      · simp [retryable, hs, show ¬ (500 ≤ s ∧ s < 600) by omega]
      · rfl
      · rfl
    unfold retryWithBackoff retryAux
    rw [hf0]
    simp [hret]
  · intro b m dmax N k f v hk htrans hok
    have := retryAux_ok_after b m dmax N f k 0 (by omega)
      (fun a ha hb => htrans a (by omega)) v (by simpa using hok)
    rw [List.range_eq_range']
    simpa [retryWithBackoff] using this
  · intro b m dmax N f eN htrans heN
    have := retryAux_exhaust b m dmax N f eN heN N 0 (by omega)
      (fun a _ hb => htrans a hb)
    rw [List.range_eq_range']
    simpa [retryWithBackoff] using this

/-- C2 witness: with `N = 2`, `d0 = 1`, `m = 2`, `dmax = 3`, a call
whose first two attempts raise connection errors and whose third
returns `"ok"` succeeds after sleeping `min (1 * 2 ^ 0) 3 = 1` and
`min (1 * 2 ^ 1) 3 = 2` seconds. -/
theorem retry_policy_classification_witness :
    retryWithBackoff 1 2 3 2
        (fun a => if a < 2 then .exc .connectionError else .ok "ok") =
      (.ok "ok", [1, 2]) := by
  have h := retry_policy_classification.2.2.1 1 2 3 2 2
      (fun a => if a < 2 then .exc .connectionError else .ok "ok") "ok"
      (le_refl 2)
      (fun a ha => ⟨.connectionError, by simp [ha], rfl⟩)
      (by norm_num)
  rw [h]
  norm_num [List.range_succ]

/-- C6.  The API-facing history built for the active persona's turn:
(1) exactly the last `H` messages are included (`H` = the configured
history window) — the window has length `min H (length conversation)`
and the built history has one entry per included message; (2) every
included `system`/`narrator` message becomes a system-role entry whose
content is the original prefixed by a non-empty emphasis string; (3)
every other included message keeps its content and gets role
`"assistant"` exactly when its speaker name equals the active persona's
name, `"user"` otherwise. -/
theorem api_history_window_and_role_mapping (conversation : List Msg)
    (historyLimit : Nat) (activeName : String) :
    (conversation.drop (conversation.length - historyLimit)).length =
        min historyLimit conversation.length ∧
    (buildApiHistory conversation historyLimit activeName).length =
        (conversation.drop (conversation.length - historyLimit)).length ∧
    ∀ (i : Nat) (m : Msg),
      (conversation.drop (conversation.length - historyLimit))[i]? = some m →
      ((m.role = Role.system ∨ m.role = Role.narrator) →
          ∃ emphasis, emphasis ≠ "" ∧
            (buildApiHistory conversation historyLimit activeName)[i]? =
              some ⟨ApiRole.system, emphasis ++ m.content⟩) ∧
      ((m.role = Role.assistant ∨ m.role = Role.user) →
          (buildApiHistory conversation historyLimit activeName)[i]? =
            some ⟨if m.persona = activeName then ApiRole.assistant else ApiRole.user,
              m.content⟩) := by
  refine ⟨?_, ?_, ?_⟩
  · rw [List.length_drop]
    omega
  · rw [buildApiHistory_eq_map, List.length_map]
  · intro i m hm
    have hout :
        (buildApiHistory conversation historyLimit activeName)[i]? =
          some (apiEntry activeName m) := by
      rw [buildApiHistory_eq_map, List.getElem?_map, hm]
      rfl
    obtain ⟨r, p, c⟩ := m
    constructor
    · rintro (rfl | rfl)
      · exact ⟨"IMPORTANT - MUST ACKNOWLEDGE AND REACT TO THIS IMMEDIATELY: ",
          by decide, hout⟩
      · exact ⟨"URGENT SCENE CHANGE - REACT TO THIS IMMEDIATELY: ",
          by decide, hout⟩
    · rintro (rfl | rfl) <;> exact hout

/-- C6 witness: with history window 2, active persona Alice, and a
conversation `[Alice-assistant, Bob-user, system]`, the included window
is the last two messages; the window length and the mapping of Bob's
message to role `"user"` with unchanged content come from the theorem
applied at index 0. -/
theorem api_history_window_and_role_mapping_witness :
    (buildApiHistory
        [⟨Role.assistant, "Alice", "hi"⟩, ⟨Role.user, "Bob", "yo"⟩,
         ⟨Role.system, "System", "alert"⟩] 2 "Alice")[0]? =
      some ⟨ApiRole.user, "yo"⟩ := by
  have h := (api_history_window_and_role_mapping
      [⟨Role.assistant, "Alice", "hi"⟩, ⟨Role.user, "Bob", "yo"⟩,
       ⟨Role.system, "System", "alert"⟩] 2 "Alice").2.2 0
      ⟨Role.user, "Bob", "yo"⟩ (by rfl)
  have h2 := h.2 (Or.inr rfl)
  simpa using h2

/-- C3 counterexample.  The claim says a frame decode failure never
raises and never terminates the stream in *both* streaming variants.
In the native-chat (Ollama) variant it does: on a stream whose first
frame is malformed, `json.loads` raises, the `except
json.JSONDecodeError` handler at src/api_clients.py line 261 raises
`APIRequestError`, and the valid fragment `"hi"` that follows is never
yielded. -/
theorem ollama_stream_aborts_on_malformed :
    ollamaStream [.malformed, .chunk (some "hi") false] = ([], true) := by
  rfl

/-- C3 (amended).  In the OpenAI-compatible streaming variants (LM
Studio and the OpenAI-compatible client) a frame that fails to decode
is logged and skipped and the stream continues — the stream never
terminates by raising, and deleting a malformed frame does not change
the output at all.  In the native-chat (Ollama) variant, by contrast, a
frame decode failure terminates the stream with an `APIRequestError`
once the loop reaches it (every earlier frame being a skipped blank or
a non-final chunk). -/
theorem stream_frame_decode_policy :
    (∀ frames : List SseFrame, (sseStream frames).2 = false) ∧
    (∀ pre post : List SseFrame,
        sseStream (pre ++ .malformed :: post) = sseStream (pre ++ post)) ∧
    (∀ pre post : List OllamaFrame,
        (∀ f ∈ pre, f = .blank ∨ ∃ c, f = .chunk c false) →
        (ollamaStream (pre ++ .malformed :: post)).2 = true) := by
  refine ⟨sseStream_never_errors, sseStream_skips_malformed, ?_⟩
  intro pre post hpre
  induction pre with
  | nil => rfl
  | cons f rest ih =>
      have hf := hpre f (List.mem_cons_self f rest)
      have hrest : ∀ g ∈ rest, g = .blank ∨ ∃ c, g = .chunk c false :=
        fun g hg => hpre g (List.mem_cons_of_mem f hg)
      rcases hf with hb | ⟨c, hc⟩
      · subst hb
        simpa [ollamaStream] using ih hrest
      · subst hc
        simpa [ollamaStream] using ih hrest

/-- C3 witness: the amended theorem applied to a concrete Ollama stream
whose malformed frame follows one ordinary chunk — the stream ends by
raising. -/
theorem stream_frame_decode_policy_witness :
    (ollamaStream ([OllamaFrame.chunk (some "a") false] ++
        OllamaFrame.malformed :: [OllamaFrame.chunk (some "b") false])).2 = true := by
  exact stream_frame_decode_policy.2.2 [.chunk (some "a") false]
    [.chunk (some "b") false]
    (by
      intro f hf
      rcases List.mem_singleton.mp hf with rfl
      exact Or.inr ⟨some "a", rfl⟩)

/-- C7 counterexample.  The claim says `list_models` never raises on a
body missing the expected fields.  For the Ollama client, a 200
response whose body is `{"models": [{}]}` — one entry without a
`"name"` key — makes the list comprehension at src/api_clients.py line
275 raise `KeyError`, which the `except requests.RequestException`
handler does not catch. -/
theorem ollama_list_models_raises_on_missing_field :
    ollamaGetAvailableModels (.response 200 (.object (some [none]))) = .raises := by
  rfl

/-- C7 (amended).  The OpenAI-compatible `get_available_models` never
raises (it catches `Exception`); the Ollama and LM Studio variants
behave identically and return `[]` on transport errors, on 4xx/5xx
statuses and on an undecodable body (all `requests.RequestException`s),
but *raise* on a 2xx body whose top level is not an object or one of
whose entries lacks the expected field. -/
theorem list_models_failure_policy :
    (∀ (apiKey : String) (fetch : FetchOutcome),
        ∃ models, oaiGetAvailableModels apiKey fetch = .ok models) ∧
    (∀ fetch, ollamaGetAvailableModels fetch = lmStudioGetAvailableModels fetch) ∧
    (ollamaGetAvailableModels .netError = .ok []) ∧
    (∀ (status : Nat) (body : JsonBody), raiseForStatusErrors status = true →
        ollamaGetAvailableModels (.response status body) = .ok []) ∧
    (∀ status : Nat, raiseForStatusErrors status = false →
        ollamaGetAvailableModels (.response status .undecodable) = .ok []) ∧
    (∀ status : Nat, raiseForStatusErrors status = false →
        ollamaGetAvailableModels (.response status .nonObject) = .raises) ∧
    (∀ (status : Nat) (entries : List (Option String)),
        raiseForStatusErrors status = false →
        entries.all Option.isSome = false →
        ollamaGetAvailableModels (.response status (.object (some entries))) = .raises) := by
  refine ⟨?_, ?_, rfl, ?_, ?_, ?_, ?_⟩
  · intro apiKey fetch
    unfold oaiGetAvailableModels
    by_cases hk : apiKey = ""
    · exact ⟨[], by simp [hk]⟩
    · simp only [hk, if_false]
      cases fetch with
      | netError => exact ⟨[], rfl⟩
      | response status body =>
          by_cases hs : raiseForStatusErrors status = true
          · exact ⟨[], by simp [hs]⟩
          · simp only [Bool.not_eq_true] at hs
            cases body with
            | undecodable => exact ⟨[], by simp [hs]⟩
            | nonObject => exact ⟨[], by simp [hs]⟩
            | object entries =>
                cases entries with
                | none => exact ⟨[], by simp [hs]⟩
                | some es =>
                    by_cases ha : es.all Option.isSome = true
                    · exact ⟨es.reduceOption, by simp [hs, ha]⟩
                    · simp only [Bool.not_eq_true] at ha
                      exact ⟨[], by simp [hs, ha]⟩
  · intro fetch
    cases fetch with
    | netError => rfl
    | response status body => cases body <;> rfl
  · intro status body hs
    simp [ollamaGetAvailableModels, hs]
  · intro status hs
    simp [ollamaGetAvailableModels, hs]
  · intro status hs
    simp [ollamaGetAvailableModels, hs]
  · intro status entries hs ha
    simp [ollamaGetAvailableModels, hs, ha]

/-- C7 witness: the amended theorem applied at concrete inputs — an
entry list `[{}]` (missing field) under a 200 status makes the Ollama
variant raise. -/
theorem list_models_failure_policy_witness :
    ollamaGetAvailableModels (.response 204 (.object (some [some "a", none]))) = .raises := by
  exact list_models_failure_policy.2.2.2.2.2.2 204 [some "a", none] (by decide) (by decide)

/-- C8 counterexample.  The claim says the fallback client's model is
restored to its prior value afterward regardless of whether the
fallback call succeeds or fails.  Concretely: a client whose prior
model is `"orig"`, whose fallback call raises, is left with the
fallback model `"fb"` — not restored. -/
theorem fallback_no_restore_on_failure :
    (fallbackTurnAttempt "fb"
        { name := "Ollama", baseUrl := "http://127.0.0.1:11434", apiKey := ""
          model := some "orig" }
        (fun _ => .exc .other)).1.model = some "fb" ∧
    some "fb" ≠ some "orig" := by
  exact ⟨rfl, by decide⟩

/-- C8 (amended).  For every fallback attempt: the attempt calls
`generate_response` on the client with its model set to the persona's
fallback model; after a *successful* call the prior model is restored
exactly when it was a truthy (set, non-empty) value, and otherwise —
prior model unset/empty, or the call raised — the client keeps the
fallback model; no other client configuration (name, base URL, API
key) is changed.  (The gating persona fallback fields are modelled from
the spec; the block itself is src/auto_chat.py lines 408–449.) -/
theorem fallback_model_discipline (fallbackModel : String) (client : ClientState)
    (call : ClientState → Outcome) :
    (∀ call₂ : ClientState → Outcome,
        call (client.setModel fallbackModel) = call₂ (client.setModel fallbackModel) →
        fallbackTurnAttempt fallbackModel client call =
          fallbackTurnAttempt fallbackModel client call₂) ∧
    (∀ v, call (client.setModel fallbackModel) = .ok v →
        truthy client.model = true →
        (fallbackTurnAttempt fallbackModel client call).1.model = client.model) ∧
    (∀ v, call (client.setModel fallbackModel) = .ok v →
        truthy client.model = false →
        (fallbackTurnAttempt fallbackModel client call).1.model = some fallbackModel) ∧
    (∀ e, call (client.setModel fallbackModel) = .exc e →
        (fallbackTurnAttempt fallbackModel client call).1.model = some fallbackModel) ∧
    ((fallbackTurnAttempt fallbackModel client call).1.name = client.name ∧
     (fallbackTurnAttempt fallbackModel client call).1.baseUrl = client.baseUrl ∧
     (fallbackTurnAttempt fallbackModel client call).1.apiKey = client.apiKey) := by
  refine ⟨?_, ?_, ?_, ?_, ?_⟩
  · intro call₂ h
    dsimp only [fallbackTurnAttempt]
    rw [h]
  · intro v hv ht
    dsimp only [fallbackTurnAttempt]
    rw [hv]
    cases hm : client.model with
    | none => simp [truthy, hm] at ht
    | some m =>
        simp only [truthy, hm, ne_eq, decide_eq_true_eq] at ht
        simp [hm, ht, ClientState.setModel]
  · intro v hv ht
    dsimp only [fallbackTurnAttempt]
    rw [hv]
    cases hm : client.model with
    | none => simp [hm, ClientState.setModel]
    | some m =>
        simp only [truthy, hm, ne_eq, decide_eq_true_eq, Bool.not_eq_true] at ht
        simp only [decide_eq_false_iff_not, not_not] at ht
        simp [hm, ht, ClientState.setModel]
  · intro e he
    dsimp only [fallbackTurnAttempt]
    rw [he]
    simp [ClientState.setModel]
  · dsimp only [fallbackTurnAttempt]
    cases hres : call (client.setModel fallbackModel) with
    | ok v =>
        cases hm : client.model with
        | none => simp [ClientState.setModel]
        | some m =>
            by_cases hms : m = "" <;> simp [hms, ClientState.setModel]
    | exc e => simp [ClientState.setModel]

/-- C5.  Configuration errors are checked before any HTTP request, are
never retried, and halt the conversation.  Three parts: (1) for every
client state with an unset/empty model or an empty API key, and *every*
transport behaviour, `OpenAICompatibleClient.generate_response` fails
with `APIKeyMissingError` or `ModelNotSetError` having issued zero HTTP
requests; (2) the retry wrapper propagates such an exception from the
first attempt with no retry and no sleep; (3) a turn whose generate
call raises one of them makes the loop stop: `is_running` becomes
false, no message is appended, and the loop performs no further
iteration regardless of remaining fuel. -/
theorem configuration_error_policy :
    (∀ (c : ClientState) (http : Unit → HttpOutcome),
        truthy c.model = false ∨ c.apiKey = "" →
        ∃ e, (e = PyExc.apiKeyMissing ∨ e = PyExc.modelNotSet) ∧
          oaiGenerateResponse c http = (.exc e, 0)) ∧
    (∀ (b m dmax : ℚ) (N : Nat) (f : Nat → Outcome) (e : PyExc),
        (e = PyExc.apiKeyMissing ∨ e = PyExc.modelNotSet) →
        f 0 = .exc e →
        retryWithBackoff b m dmax N f = (.raised e, [])) ∧
    (∀ (cfg : EngineConfig) (st : EngineState),
        st.running = true → st.turnIndex < cfg.maxTurns →
        (cfg.gen st.turnIndex = .apiKeyMissing ∨ cfg.gen st.turnIndex = .modelNotSet) →
        (turnBody cfg st).running = false ∧
        (turnBody cfg st).messages = st.messages ∧
        ∀ fuel, runLoop cfg (fuel + 1) st = turnBody cfg st) := by
  refine ⟨?_, ?_, ?_⟩
  · intro c http h
    by_cases hk : c.apiKey = ""
    · exact ⟨.apiKeyMissing, Or.inl rfl, by simp [oaiGenerateResponse, truthy, hk]⟩
    · have hm : truthy c.model = false := by
        rcases h with h | h
        · exact h
        · exact absurd h hk
      have h1 : truthy (some c.apiKey) = true := by simp [truthy, hk]
      exact ⟨.modelNotSet, Or.inr rfl, by simp [oaiGenerateResponse, h1, hm]⟩
  · intro b m dmax N f e he hf0
    have hret : retryable e = false := by rcases he with rfl | rfl <;> rfl
    unfold retryWithBackoff retryAux
    rw [hf0]
    simp [hret]
  · intro cfg st hrun hlt hgen
    have hbody : (turnBody cfg st).running = false ∧ (turnBody cfg st).messages = st.messages := by
      unfold turnBody
      rcases hgen with h | h <;> rw [h]
      · exact ⟨rfl, rfl⟩
      · exact ⟨rfl, rfl⟩
    refine ⟨hbody.1, hbody.2, ?_⟩
    intro fuel
    have hstep : runLoop cfg (fuel + 1) st = runLoop cfg fuel (turnBody cfg st) := by
      simp [runLoop, hrun, hlt]
    rw [hstep, runLoop_of_not_running cfg fuel _ hbody.1]

/-- C5 witness: a hosted-vendor client with an API key but no model
set fails with `ModelNotSetError` and zero HTTP requests, for a
transport oracle that would otherwise fail. -/
theorem configuration_error_policy_witness :
    ∃ e, (e = PyExc.apiKeyMissing ∨ e = PyExc.modelNotSet) ∧
      oaiGenerateResponse
        { name := "OpenAI", baseUrl := "https://api.openai.com/v1"
          apiKey := "k", model := none }
        (fun _ => .fail .other) = (.exc e, 0) := by
  exact configuration_error_policy.1 _ _ (Or.inl (by decide))

/-- C8 witness: the amended theorem applied at a concrete client whose
prior model `"orig"` is truthy and whose fallback call succeeds — the
model is restored to `"orig"` and the other fields are unchanged. -/
theorem fallback_model_discipline_witness :
    (fallbackTurnAttempt "fb"
        { name := "OpenRouter", baseUrl := "https://openrouter.ai/api/v1"
          apiKey := "k", model := some "orig" }
        (fun _ => .ok "hello")).1.model = some "orig" := by
  have h := (fallback_model_discipline "fb"
      { name := "OpenRouter", baseUrl := "https://openrouter.ai/api/v1"
        apiKey := "k", model := some "orig" }
      (fun _ => .ok "hello")).2.1 "hello" rfl (by decide)
  simpa using h

end AutoChat
